import Mathlib

/-!
Verification of the PixelGooeyTooltip widget (codrops/PixelGooeyTooltip).

The development shallowly embeds the two source files:
  * `src/js/index.js` (trigger wiring and the show/hide timer dispatcher), and
  * the `Tooltip` class (position clamping, constructor/grid layout, effect
    dispatch, timeline management).

JavaScript numbers appearing in the position arithmetic are modelled as `Int`
(all inputs in scope are integral pixel quantities); DOM lookups that may
return `null` are modelled as `Option`; statements that may throw are modelled
by returning an error component.
-/

namespace PixelGooeyTooltip

/-- A JavaScript runtime error raised by the embedded code. -/
inductive JsError where
  | typeError
deriving DecidableEq, Repr

/-- The `{left, top}` pair returned by `calculateTooltipPosition`. -/
structure Position where
  left : Int
  top : Int
deriving DecidableEq, Repr

/--
Embedding of `Tooltip.calculateTooltipPosition` (src/js/index.js lines
106-146).  The DOM reads (`clientX/Y`, scroll offsets, viewport size, the
tooltip element's `offsetWidth/Height`) become the eight parameters; the
four `if` adjustments are applied in source order.
-/
def calculateTooltipPosition (clientX clientY scrollLeft scrollTop
    viewportWidth viewportHeight tooltipWidth tooltipHeight : Int) : Position :=
  -- let position = { left: clientX + scrollLeft, top: clientY + scrollTop }
  let position : Position := { left := clientX + scrollLeft, top := clientY + scrollTop }
  -- if (clientX + tooltipWidth > viewportWidth) position.left = clientX - tooltipWidth + scrollLeft
  let position :=
    if clientX + tooltipWidth > viewportWidth then
      { position with left := clientX - tooltipWidth + scrollLeft }
    else position
  -- if (clientY + tooltipHeight > viewportHeight) position.top = clientY - tooltipHeight + scrollTop
  let position :=
    if clientY + tooltipHeight > viewportHeight then
      { position with top := clientY - tooltipHeight + scrollTop }
    else position
  -- if (position.left < scrollLeft) position.left = scrollLeft
  let position :=
    if position.left < scrollLeft then { position with left := scrollLeft } else position
  -- if (position.top < scrollTop) position.top = scrollTop
  let position :=
    if position.top < scrollTop then { position with top := scrollTop } else position
  position

/--
C1.  With zero scroll offsets, for every pointer position `(x, y)` inside the
viewport (`0 ≤ x ≤ W`, `0 ≤ y ≤ H`) and every tooltip size `(w, h)`,
`calculateTooltipPosition` returns `left ∈ [0, max 0 (W - w)]` and
`top ∈ [0, max 0 (H - h)]`.
-/
theorem calculateTooltipPosition_clamped (x y w h W H : Int)
    (hx0 : 0 ≤ x) (hxW : x ≤ W) (hy0 : 0 ≤ y) (hyH : y ≤ H)
    (hw : 0 ≤ w) (hh : 0 ≤ h) :
    0 ≤ (calculateTooltipPosition x y 0 0 W H w h).left ∧
      (calculateTooltipPosition x y 0 0 W H w h).left ≤ max 0 (W - w) ∧
      0 ≤ (calculateTooltipPosition x y 0 0 W H w h).top ∧
      (calculateTooltipPosition x y 0 0 W H w h).top ≤ max 0 (H - h) := by
  simp only [calculateTooltipPosition]
  split_ifs <;> simp_all <;> omega

/-- Witness for C1 at the concrete input `x = 900, y = 700, w = 200, h = 100,
W = 1024, H = 768`. -/
theorem calculateTooltipPosition_clamped_witness :
    0 ≤ (calculateTooltipPosition 900 700 0 0 1024 768 200 100).left ∧
      (calculateTooltipPosition 900 700 0 0 1024 768 200 100).left ≤ max 0 (1024 - 200) ∧
      0 ≤ (calculateTooltipPosition 900 700 0 0 1024 768 200 100).top ∧
      (calculateTooltipPosition 900 700 0 0 1024 768 200 100).top ≤ max 0 (768 - 100) :=
  calculateTooltipPosition_clamped 900 700 200 100 1024 768
    (by decide) (by decide) (by decide) (by decide) (by decide) (by decide)

/--
C2 counterexample.  With viewport 1024×768, zero scroll, tooltip 200×100 and
pointer `(900, 700)`, the code returns `(700, 600)`, not the `(824, 668)` the
claim states: both overflow branches flip to pointer-minus-size
(`900 - 200 = 700`, `700 - 100 = 600`) and no further clamp applies.
-/
theorem calculateTooltipPosition_scenario_not_824_668 :
    calculateTooltipPosition 900 700 0 0 1024 768 200 100 = { left := 700, top := 600 } ∧
      ({ left := 700, top := 600 } : Position) ≠ { left := 824, top := 668 } := by
  decide

/--
C2 amended.  With viewport 1024×768, zero scroll, tooltip 200×100 and pointer
`(900, 700)`, `calculateTooltipPosition` returns `left = 700` and `top = 600`.
-/
theorem calculateTooltipPosition_scenario :
    calculateTooltipPosition 900 700 0 0 1024 768 200 100 = { left := 700, top := 600 } := by
  decide

/-! ## Constructor, `parseInt` and the `#layout` grid -/

/-- Leading-whitespace skip performed by JavaScript `parseInt` before parsing. -/
def skipWs : List Char → List Char
  | [] => []
  | c :: rest => if c = ' ' ∨ c = '\t' ∨ c = '\n' ∨ c = '\r' then skipWs rest else c :: rest

/-- Longest decimal-digit prefix, as `parseInt(_, 10)` reads it: `none` when no
digit was consumed (NaN), `some v` for the accumulated value. -/
def takeDigits : List Char → Option Nat → Option Nat
  | [], acc => acc
  | c :: rest, acc =>
    if c.isDigit then takeDigits rest (some ((acc.getD 0) * 10 + (c.toNat - 48)))
    else acc

/-- Embedding of JavaScript `parseInt(s, 10)` on a possibly-undefined dataset
attribute.  A missing attribute (`undefined`) coerces to the string
`"undefined"`, which parses to NaN, modelled as `none`; otherwise leading
whitespace is skipped, an optional sign is read, and the longest digit prefix
gives the value (NaN when there is none). -/
def parseIntJs (s : Option String) : Option Int :=
  match s with
  | none => none
  | some str =>
    match skipWs str.data with
    | '-' :: rest => (takeDigits rest none).map (fun n => -(n : Int))
    | '+' :: rest => (takeDigits rest none).map (fun n => (n : Int))
    | l => (takeDigits l none).map (fun n => (n : Int))

/-- JavaScript `v || d` for a number `v`: NaN (here `none`) and `0` are falsy
and yield the default. -/
def orDefaultInt (v : Option Int) (d : Int) : Int :=
  match v with
  | none => d
  | some n => if n = 0 then d else n

/-- The string `'<div></div>'` appended for each cell in `#layout`. -/
def divDiv : List Char := ['<', 'd', 'i', 'v', '>', '<', '/', 'd', 'i', 'v', '>']

/-- Embedding of the nested cell loop of `Tooltip.#layout` (lines 162-174):
`strHTML += '<div></div>'` for each of `rows × cols` iterations.  A JavaScript
counting loop `for (let i = 0; i < bound; i++)` runs `bound.toNat` iterations
(none when the bound is negative). -/
def layoutHTML (rows cols : Int) : List Char :=
  (List.range rows.toNat).foldl
    (fun acc _ => (List.range cols.toNat).foldl (fun a _ => a ++ divDiv) acc) []

/-- The browser's parse of the `innerHTML` string assigned in `#layout`,
restricted to the markup that function emits: a sequence of empty `div`
elements, returned as the element list that `querySelectorAll('div')` yields.
`none` when the string is not such a sequence. -/
def parseDivsF : Nat → List Char → Option (List Unit)
  | _, [] => some []
  | 0, _ :: _ => none
  | fuel + 1, c :: rest =>
    if (c :: rest).take 11 = divDiv then
      (parseDivsF fuel (rest.drop 10)).map (fun cs => () :: cs)
    else none

/-- `parseDivsF` with enough fuel to consume the whole input. -/
def parseDivs (l : List Char) : Option (List Unit) := parseDivsF l.length l

/-- The `.tooltip__content` element of a tooltip target, recording whether the
`.tooltip__content-title` and `.tooltip__content-desc` lookups find a child. -/
structure ContentEl where
  hasTitle : Bool
  hasDesc : Bool
deriving DecidableEq, Repr

/-- A tooltip target element as the constructor reads it: presence of the
`.tooltip__bg` and `.tooltip__content` children and the two dataset
attributes. -/
structure TooltipEl where
  hasBg : Bool
  content : Option ContentEl
  datasetRows : Option String
  datasetCols : Option String
deriving DecidableEq, Repr

/-- The fields of a constructed `Tooltip` instance that the claims concern:
`rows`, `cols`, whether `contentTitle`/`contentDescription` are non-null, and
the `cells` array. -/
structure TooltipInstance where
  rows : Int
  cols : Int
  contentTitle : Bool
  contentDescription : Bool
  cells : List Unit
deriving DecidableEq, Repr

/-- Embedding of the `Tooltip` constructor (lines 85-99) together with the
`#layout` call it makes.  `this.DOM.content.querySelector(...)` on a null
`content` throws a `TypeError`, as does `this.DOM.bg.innerHTML = ...` inside
`#layout` when `bg` is null; otherwise the title/description lookups may
return null without throwing, `rows`/`cols` come from
`parseInt(dataset, 10) || 4`, and `cells` is the spread of
`bg.querySelectorAll('div')` over the freshly assigned markup. -/
def Tooltip.construct (el : TooltipEl) : Except JsError TooltipInstance :=
  match el.content with
  | none => .error .typeError
  | some content =>
    let contentTitle := content.hasTitle
    let contentDescription := content.hasDesc
    let rows := orDefaultInt (parseIntJs el.datasetRows) 4
    let cols := orDefaultInt (parseIntJs el.datasetCols) 4
    if el.hasBg then
      .ok { rows := rows, cols := cols, contentTitle := contentTitle,
            contentDescription := contentDescription,
            cells := (parseDivs (layoutHTML rows cols)).getD [] }
    else .error .typeError

/-- `n` copies of the `'<div></div>'` token. -/
def tokenRep : Nat → List Char
  | 0 => []
  | n + 1 => divDiv ++ tokenRep n

theorem tokenRep_append_comm (n : Nat) : tokenRep n ++ divDiv = divDiv ++ tokenRep n := by
  induction n with
  | zero => simp [tokenRep]
  | succ n ih => simp only [tokenRep, List.append_assoc, ih]

theorem tokenRep_add (a b : Nat) : tokenRep (a + b) = tokenRep a ++ tokenRep b := by
  induction a with
  | zero => simp [tokenRep]
  | succ a ih =>
    have : a + 1 + b = (a + b) + 1 := by omega
    rw [this]
    simp only [tokenRep, ih, List.append_assoc]

theorem foldl_divDiv (c : Nat) (acc : List Char) :
    (List.range c).foldl (fun a _ => a ++ divDiv) acc = acc ++ tokenRep c := by
  induction c with
  | zero => simp [tokenRep]
  | succ c ih =>
    rw [List.range_succ, List.foldl_append, ih]
    simp only [List.foldl_cons, List.foldl_nil, List.append_assoc, tokenRep_append_comm]
    rfl

theorem foldl_rows_divDiv (r c : Nat) :
    (List.range r).foldl
      (fun acc _ => (List.range c).foldl (fun a _ => a ++ divDiv) acc) [] =
      tokenRep (r * c) := by
  induction r with
  | zero => simp [tokenRep]
  | succ r ih =>
    rw [List.range_succ, List.foldl_append, List.foldl_cons, List.foldl_nil, ih,
      foldl_divDiv, ← tokenRep_add, Nat.succ_mul]

theorem layoutHTML_eq_tokenRep (rows cols : Int) :
    layoutHTML rows cols = tokenRep (rows.toNat * cols.toNat) := by
  unfold layoutHTML
  exact foldl_rows_divDiv rows.toNat cols.toNat

theorem parseDivsF_fuel (f1 : Nat) :
    ∀ (f2 : Nat) (l : List Char), l.length ≤ f1 → l.length ≤ f2 →
      parseDivsF f1 l = parseDivsF f2 l := by
  induction f1 with
  | zero =>
    intro f2 l h1 _
    cases l with
    | nil => cases f2 <;> rfl
    | cons c rest => simp at h1
  | succ f ih =>
    intro f2 l h1 h2
    cases l with
    | nil => cases f2 <;> rfl
    | cons c rest =>
      cases f2 with
      | zero => simp at h2
      | succ f2 =>
        simp only [parseDivsF]
        by_cases htake : (c :: rest).take 11 = divDiv
        · rw [if_pos htake, if_pos htake,
            ih f2 (rest.drop 10) (by simp at h1 ⊢; omega) (by simp at h2 ⊢; omega)]
        · rw [if_neg htake, if_neg htake]

theorem parseDivs_divDiv (rest : List Char) :
    parseDivs (divDiv ++ rest) = (parseDivs rest).map (fun cs => () :: cs) := by
  have h1 : divDiv ++ rest
      = '<' :: (['d', 'i', 'v', '>', '<', '/', 'd', 'i', 'v', '>'] ++ rest) := rfl
  have htake : (('<' : Char) :: (['d', 'i', 'v', '>', '<', '/', 'd', 'i', 'v', '>'] ++ rest)).take 11
      = divDiv := by
    rw [← h1, show (11 : Nat) = divDiv.length from rfl, List.take_left]
  have hdrop : (['d', 'i', 'v', '>', '<', '/', 'd', 'i', 'v', '>'] ++ rest).drop 10 = rest := by
    rw [show (10 : Nat) = (['d', 'i', 'v', '>', '<', '/', 'd', 'i', 'v', '>'] : List Char).length
      from rfl, List.drop_left]
  have hlen : (divDiv ++ rest).length = 10 + rest.length + 1 := by
    simp [divDiv]
    omega
  rw [parseDivs, hlen, h1, parseDivsF, if_pos htake, hdrop,
    parseDivsF_fuel (10 + rest.length) rest.length rest (by omega) (by omega)]
  rfl

theorem parseDivs_tokenRep (n : Nat) : parseDivs (tokenRep n) = some (List.replicate n ()) := by
  induction n with
  | zero => rfl
  | succ n ih => rw [tokenRep, parseDivs_divDiv, ih, List.replicate_succ]; rfl

theorem parseDivs_layoutHTML (rows cols : Int) :
    parseDivs (layoutHTML rows cols) = some (List.replicate (rows.toNat * cols.toNat) ()) := by
  rw [layoutHTML_eq_tokenRep, parseDivs_tokenRep]

theorem orDefaultInt_ne_zero (v : Option Int) : orDefaultInt v 4 ≠ 0 := by
  cases v with
  | none => simp [orDefaultInt]
  | some n =>
    by_cases hn : n = 0 <;> simp [orDefaultInt, hn]

/-- A target element with a background container but no `.tooltip__content`. -/
def elNoContent : TooltipEl :=
  { hasBg := true, content := none, datasetRows := none, datasetCols := none }

/-- A target element whose content container lacks both title and description
children. -/
def elNoChildren : TooltipEl :=
  { hasBg := true, content := some { hasTitle := false, hasDesc := false },
    datasetRows := none, datasetCols := none }

/-- A fully populated target element carrying `data-rows="-3" data-cols="-3"`. -/
def elNegative : TooltipEl :=
  { hasBg := true, content := some { hasTitle := true, hasDesc := true },
    datasetRows := some "-3", datasetCols := some "-3" }

/-- A fully populated target element carrying `data-rows="2" data-cols="3"`. -/
def elGood : TooltipEl :=
  { hasBg := true, content := some { hasTitle := true, hasDesc := true },
    datasetRows := some "2", datasetCols := some "3" }

/-- The instance the constructor builds from `elGood`. -/
def tGood : TooltipInstance :=
  { rows := 2, cols := 3, contentTitle := true, contentDescription := true,
    cells := List.replicate 6 () }

/--
C3 counterexample.  For a target element that lacks the content container,
construction does not complete: `this.DOM.content.querySelector(...)` throws a
`TypeError`, contradicting the claim that construction itself finishes and only
later animation calls fail.
-/
theorem construct_missingContent_throws :
    Tooltip.construct elNoContent = .error .typeError := rfl

/--
C3 amended.  When the content container exists (and the background container
is present, so `#layout` succeeds), construction completes without throwing
even if the title/description children are missing; the `contentTitle` and
`contentDescription` fields simply record the absent lookups.
-/
theorem construct_missing_children_completes (el : TooltipEl) (c : ContentEl)
    (hc : el.content = some c) (hbg : el.hasBg = true) :
    (Tooltip.construct el).toOption.map (fun t => (t.contentTitle, t.contentDescription))
      = some (c.hasTitle, c.hasDesc) := by
  unfold Tooltip.construct
  rw [hc, hbg]
  rfl

/-- Witness for C3's amended theorem at a concrete element with both children
missing. -/
theorem construct_missing_children_completes_witness :
    (Tooltip.construct elNoChildren).toOption.map
      (fun t => (t.contentTitle, t.contentDescription)) = some (false, false) :=
  construct_missing_children_completes elNoChildren
    { hasTitle := false, hasDesc := false } rfl rfl

/--
C5 counterexample.  The element `elNegative` (`data-rows="-3" data-cols="-3"`)
constructs successfully with `rows = cols = -3`, yet produces `0` cells while
`rows * cols = 9`: the invariant `cells.length == rows * cols` fails.
-/
theorem construct_cells_count_mismatch :
    (Tooltip.construct elNegative).toOption.map
        (fun t => ((t.cells.length : Int), t.rows * t.cols)) = some (0, 9) ∧
      (0 : Int) ≠ 9 := by
  constructor
  · rfl
  · decide

/--
C5 amended.  Every successfully constructed instance has
`cells.length = rows.toNat * cols.toNat`: exactly `rows * cols` cells whenever
both counts are non-negative, and `0` iterations of the layout loop for a
negative count.
-/
theorem construct_cells_length (el : TooltipEl) (t : TooltipInstance)
    (h : Tooltip.construct el = .ok t) :
    t.cells.length = t.rows.toNat * t.cols.toNat := by
  unfold Tooltip.construct at h
  cases hc : el.content with
  | none => rw [hc] at h; exact absurd h (by simp)
  | some c =>
    rw [hc] at h
    dsimp only at h
    by_cases hbg : el.hasBg
    · rw [if_pos hbg] at h
      simp only [Except.ok.injEq] at h
      subst h
      simp [parseDivs_layoutHTML]
    · rw [if_neg hbg] at h
      exact absurd h (by simp)

/-- Witness for C5's amended theorem at the concrete element `elGood`. -/
theorem construct_cells_length_witness :
    tGood.cells.length = tGood.rows.toNat * tGood.cols.toNat :=
  construct_cells_length elGood tGood (by rfl)

/--
C9 counterexample.  The attribute string `"-3"` parses to `-3`, which is
truthy, so the default `4` is not applied: the constructed instance has
`rows = -3`, refuting `rows ≥ 1`.
-/
theorem construct_rows_negative :
    (Tooltip.construct elNegative).toOption.map (fun t => t.rows) = some (-3) ∧
      ¬ (1 ≤ (-3 : Int)) := by
  constructor
  · rfl
  · decide

/--
C9 amended.  For every constructed instance, `rows ≠ 0` and `cols ≠ 0`: an
attribute parsing to `0` or failing to parse is replaced by the default `4`
(so an explicitly configured 0×0 grid is impossible), but negative parsed
values are kept, so `rows ≥ 1` does not hold in general.
-/
theorem construct_rows_cols_ne_zero (el : TooltipEl) (t : TooltipInstance)
    (h : Tooltip.construct el = .ok t) : t.rows ≠ 0 ∧ t.cols ≠ 0 := by
  unfold Tooltip.construct at h
  cases hc : el.content with
  | none => rw [hc] at h; exact absurd h (by simp)
  | some c =>
    rw [hc] at h
    dsimp only at h
    by_cases hbg : el.hasBg
    · rw [if_pos hbg] at h
      simp only [Except.ok.injEq] at h
      subst h
      exact ⟨orDefaultInt_ne_zero _, orDefaultInt_ne_zero _⟩
    · rw [if_neg hbg] at h
      exact absurd h (by simp)

/-- Witness for C9's amended theorem at the concrete element `elGood`. -/
theorem construct_rows_cols_ne_zero_witness : tGood.rows ≠ 0 ∧ tGood.cols ≠ 0 :=
  construct_rows_cols_ne_zero elGood tGood (by rfl)

/-! ## Toggle, effect dispatch and timelines -/

/-- Runtime state of a `Tooltip` instance as the animation claims observe it:
the `isOpen` flag, the identifier of the timeline currently referenced by
`this.tl` (timelines are numbered in creation order, `nextTl` being the next
fresh identifier), the list of created-and-not-killed timelines, the messages
written by `console.warn`, and the background element's `filter` style (the
only DOM style an effect routine mutates synchronously). -/
structure TooltipState where
  isOpen : Bool
  tl : Option Nat
  live : List Nat
  nextTl : Nat
  warnings : List String
  bgFilter : Option String
deriving DecidableEq, Repr

/-- JavaScript `s.charAt(0).toUpperCase() + s.slice(1)` from `#animateCells`
(line 206); on the empty string every piece is empty. -/
def capitalizeJs (s : String) : String :=
  match s.data with
  | [] => ""
  | c :: rest => String.mk (c.toUpper :: rest)

/-- The dynamically constructed method name of `#animateCells`. -/
def methodNameOf (e : String) : String := "animate" ++ capitalizeJs e

/-- Embedding of `createDefaultTimeline` (lines 224-249) combined with the
`this.tl = ...` assignment that every caller performs on its result: the
timeline referenced by `this.tl`, if any, is killed first, then a fresh
timeline is created and becomes `this.tl`.  The timeline callbacks act on the
GSAP layer and the class list, which none of the claims inspect. -/
def createDefaultTimeline (s : TooltipState) : TooltipState :=
  let live :=
    match s.tl with
    | some i => s.live.erase i
    | none => s.live
  { s with live := live ++ [s.nextTl], tl := some s.nextTl, nextTl := s.nextTl + 1 }

/-- Embedding of `animateTooltipContent` (lines 254-269): it operates on the
existing `this.tl`, throwing a `TypeError` when that field is still undefined,
and otherwise only appends tweens to the timeline. -/
def animateTooltipContent (s : TooltipState) : TooltipState × Option JsError :=
  match s.tl with
  | none => (s, some .typeError)
  | some _ => (s, none)

/-- `animateEffect1` (lines 274-319): a fresh default timeline, per-cell
tweens, then the content animation. -/
def animateEffect1 (s : TooltipState) : TooltipState × Option JsError :=
  animateTooltipContent (createDefaultTimeline s)

/-- `animateEffect2` (lines 324-354). -/
def animateEffect2 (s : TooltipState) : TooltipState × Option JsError :=
  animateTooltipContent (createDefaultTimeline s)

/-- `animateEffect3` (lines 359-394). -/
def animateEffect3 (s : TooltipState) : TooltipState × Option JsError :=
  animateTooltipContent (createDefaultTimeline s)

/-- `animateEffect4` (lines 399-434). -/
def animateEffect4 (s : TooltipState) : TooltipState × Option JsError :=
  animateTooltipContent (createDefaultTimeline s)

/-- `animateEffect5` (lines 439-471). -/
def animateEffect5 (s : TooltipState) : TooltipState × Option JsError :=
  animateTooltipContent (createDefaultTimeline s)

/-- `animateEffect6` (lines 477-514): additionally sets the gooey filter on
the background element before creating its timeline. -/
def animateEffect6 (s : TooltipState) : TooltipState × Option JsError :=
  animateTooltipContent (createDefaultTimeline { s with bgFilter := some "url(#gooey)" })

/-- Embedding of `Tooltip.#animateCells` (lines 203-215): build the method
name from `effectType` (throwing a `TypeError` when `effectType` is
`undefined`, since `undefined.charAt` is dereferenced), call the method when
it exists, and otherwise emit one `console.warn` diagnostic.  The methods of
the class whose names start with `animate` are `animateTooltipContent` and
`animateEffect1` through `animateEffect6`. -/
def animateCells (s : TooltipState) (effectType : Option String) :
    TooltipState × Option JsError :=
  match effectType with
  | none => (s, some .typeError)
  | some e =>
    let methodName := methodNameOf e
    if methodName = "animateTooltipContent" then animateTooltipContent s
    else if methodName = "animateEffect1" then animateEffect1 s
    else if methodName = "animateEffect2" then animateEffect2 s
    else if methodName = "animateEffect3" then animateEffect3 s
    else if methodName = "animateEffect4" then animateEffect4 s
    else if methodName = "animateEffect5" then animateEffect5 s
    else if methodName = "animateEffect6" then animateEffect6 s
    else ({ s with warnings :=
              s.warnings ++ ["Animation effect " ++ e ++ " is not defined."] }, none)

/-- Embedding of `Tooltip.toggle` (lines 188-195): flip `isOpen`, then run
`#animateCells`.  The flip happens before any code that can throw. -/
def Tooltip.toggle (s : TooltipState) (effectType : Option String) :
    TooltipState × Option JsError :=
  animateCells { s with isOpen := !s.isOpen } effectType

theorem animateTooltipContent_fst (s : TooltipState) : (animateTooltipContent s).1 = s := by
  unfold animateTooltipContent
  cases h : s.tl <;> simp

theorem createDefaultTimeline_isOpen (s : TooltipState) :
    (createDefaultTimeline s).isOpen = s.isOpen := by
  unfold createDefaultTimeline
  cases h : s.tl <;> simp

theorem animateCells_isOpen (s : TooltipState) (o : Option String) :
    (animateCells s o).1.isOpen = s.isOpen := by
  cases o with
  | none => rfl
  | some e =>
    unfold animateCells
    dsimp only
    split_ifs <;>
      simp only [animateEffect1, animateEffect2, animateEffect3, animateEffect4,
        animateEffect5, animateEffect6, animateTooltipContent_fst,
        createDefaultTimeline_isOpen]

/-- The effect names the triggers select via `data-effect` (each resolving to
one of the `animateEffect1`..`animateEffect6` routines). -/
def recognizedEffects : List String :=
  ["effect1", "effect2", "effect3", "effect4", "effect5", "effect6"]

theorem effectBody_spec (s : TooltipState) (i : Nat)
    (htl : s.tl = some i) (hlive : s.live = [i]) :
    animateTooltipContent (createDefaultTimeline s) =
      ({ s with live := [s.nextTl], tl := some s.nextTl, nextTl := s.nextTl + 1 }, none) := by
  unfold createDefaultTimeline
  rw [htl, hlive]
  dsimp only
  rw [List.erase_cons_head, List.nil_append]
  rfl

theorem effectBody_post (s : TooltipState) (i : Nat)
    (htl : s.tl = some i) (hlive : s.live = [i]) (hne : i ≠ s.nextTl) :
    (animateTooltipContent (createDefaultTimeline s)).1.live = [s.nextTl] ∧
      i ∉ (animateTooltipContent (createDefaultTimeline s)).1.live ∧
      (animateTooltipContent (createDefaultTimeline s)).1.tl = some s.nextTl := by
  rw [effectBody_spec s i htl hlive]
  refine ⟨rfl, ?_, rfl⟩
  simp [hne]

theorem animateCells_tooltipContent (s : TooltipState) :
    animateCells s (some "tooltipContent") = animateTooltipContent s := rfl

theorem animateCells_effect1 (s : TooltipState) :
    animateCells s (some "effect1") = animateEffect1 s := rfl

theorem animateCells_effect2 (s : TooltipState) :
    animateCells s (some "effect2") = animateEffect2 s := rfl

theorem animateCells_effect3 (s : TooltipState) :
    animateCells s (some "effect3") = animateEffect3 s := rfl

theorem animateCells_effect4 (s : TooltipState) :
    animateCells s (some "effect4") = animateEffect4 s := rfl

theorem animateCells_effect5 (s : TooltipState) :
    animateCells s (some "effect5") = animateEffect5 s := rfl

theorem animateCells_effect6 (s : TooltipState) :
    animateCells s (some "effect6") = animateEffect6 s := rfl

/-- A closed instance with no timeline yet: the state right after
construction. -/
def s0 : TooltipState :=
  { isOpen := false, tl := none, live := [], nextTl := 0, warnings := [], bgFilter := none }

/-- An open instance whose timeline `0` is live, with `1` the next fresh
timeline identifier. -/
def s1 : TooltipState :=
  { isOpen := true, tl := some 0, live := [0], nextTl := 1, warnings := [], bgFilter := none }

/--
C4.  For every effect name whose synthesized method name matches none of the
`animate…` routines of the class, `toggle` flips `isOpen`, appends exactly one
`console.warn` diagnostic, and changes nothing else: no timeline is created
or killed (`tl`, `live`, `nextTl` unchanged), no error is thrown, and the DOM
state (`bgFilter`) is untouched.
-/
theorem toggle_unknown_effect (s : TooltipState) (e : String)
    (h : methodNameOf e ∉ (["animateTooltipContent", "animateEffect1", "animateEffect2",
      "animateEffect3", "animateEffect4", "animateEffect5", "animateEffect6"] : List String)) :
    Tooltip.toggle s (some e) =
      ({ s with isOpen := !s.isOpen,
                warnings := s.warnings ++ ["Animation effect " ++ e ++ " is not defined."] },
        none) := by
  unfold Tooltip.toggle animateCells
  simp only [List.mem_cons, List.not_mem_nil, or_false, not_or] at h
  obtain ⟨h1, h2, h3, h4, h5, h6, h7⟩ := h
  dsimp only
  rw [if_neg h1, if_neg h2, if_neg h3, if_neg h4, if_neg h5, if_neg h6, if_neg h7]

/-- Witness for C4 at the unknown effect name `"glow"` on the closed state. -/
theorem toggle_unknown_effect_witness :
    Tooltip.toggle s0 (some "glow") =
      ({ s0 with isOpen := !s0.isOpen,
                 warnings := s0.warnings ++ ["Animation effect " ++ "glow" ++ " is not defined."] },
        none) :=
  toggle_unknown_effect s0 "glow" (by decide)

/--
C7.  When `toggle` runs with one of the six recognized reveal-effect names
while a previous timeline `i` is the only live one, that timeline is killed
inside `createDefaultTimeline` before the fresh timeline `s.nextTl` is
created: afterwards the fresh timeline is the only live one, the old one is no
longer live, and `this.tl` references the fresh one — no state with two live
timelines arises.
-/
theorem toggle_supersedes_prior_timeline (s : TooltipState) (i : Nat) (e : String)
    (htl : s.tl = some i) (hlive : s.live = [i]) (hfresh : i < s.nextTl)
    (he : e ∈ recognizedEffects) :
    (Tooltip.toggle s (some e)).1.live = [s.nextTl] ∧
      i ∉ (Tooltip.toggle s (some e)).1.live ∧
      (Tooltip.toggle s (some e)).1.tl = some s.nextTl := by
  have hne : i ≠ s.nextTl := Nat.ne_of_lt hfresh
  fin_cases he <;>
  · unfold Tooltip.toggle
    first
      | rw [animateCells_effect1] | rw [animateCells_effect2] | rw [animateCells_effect3]
      | rw [animateCells_effect4] | rw [animateCells_effect5] | rw [animateCells_effect6]
    simp only [animateEffect1, animateEffect2, animateEffect3, animateEffect4,
      animateEffect5, animateEffect6]
    refine effectBody_post _ i ?_ ?_ ?_
    · exact htl
    · exact hlive
    · exact hne

/-- Witness for C7 on the open state `s1` (timeline `0` live) with effect
`"effect2"`. -/
theorem toggle_supersedes_prior_timeline_witness :
    (Tooltip.toggle s1 (some "effect2")).1.live = [s1.nextTl] ∧
      0 ∉ (Tooltip.toggle s1 (some "effect2")).1.live ∧
      (Tooltip.toggle s1 (some "effect2")).1.tl = some s1.nextTl :=
  toggle_supersedes_prior_timeline s1 0 "effect2" rfl rfl (by decide) (by decide)

/--
C8.  `toggle` flips `isOpen` before anything else and no effect routine
touches it again, so two successive `toggle` calls — with any effect
arguments, defined, unknown or missing — return `isOpen` to its original
value.
-/
theorem toggle_toggle_isOpen (s : TooltipState) (e1 e2 : Option String) :
    (Tooltip.toggle (Tooltip.toggle s e1).1 e2).1.isOpen = s.isOpen := by
  have h1 : ∀ (s' : TooltipState) (o : Option String),
      (Tooltip.toggle s' o).1.isOpen = !s'.isOpen := by
    intro s' o
    unfold Tooltip.toggle
    rw [animateCells_isOpen]
  rw [h1, h1, Bool.not_not]

/--
C10.  When `toggle` is invoked with a missing effect name (`effectType`
undefined), `#animateCells` dereferences `undefined.charAt` and throws a
`TypeError`: `isOpen` has already been flipped, and the diagnostic branch is
never reached (`warnings`, like every other field, is unchanged).
-/
theorem toggle_missing_effect_throws (s : TooltipState) :
    Tooltip.toggle s none = ({ s with isOpen := !s.isOpen }, some JsError.typeError) := rfl

/-! ## The per-trigger show/hide timer dispatcher (index.js lines 25-64) -/

/-- A pending `setTimeout` timer: its identifier (creation order), absolute
fire time, and whether it is a show timer (`showTimeout`) or a hide timer
(`hideTimeout`). -/
structure TimerM where
  id : Nat
  time : Nat
  isShow : Bool
deriving DecidableEq, Repr

/-- State of one trigger's dispatcher: the tooltip's `isOpen` flag, the
pending timers in creation order, the identifiers currently stored in the
`showTimeout` and `hideTimeout` variables (`none` while still undefined), the
next fresh timer identifier, and a count of `Tooltip.toggle` invocations. -/
structure DispState where
  isOpen : Bool
  timers : List TimerM
  showRef : Option Nat
  hideRef : Option Nat
  nextId : Nat
  toggles : Nat
deriving DecidableEq, Repr

/-- The two dispatcher-relevant trigger events: `mouseenter`/`touchstart` and
`mouseleave`/`touchend`. -/
inductive EventKind where
  | startEv
  | endEv
deriving DecidableEq, Repr

/-- `clearTimeout(ref)`: removes the identified timer when it is still
pending, and is a no-op otherwise (also when `ref` is still undefined). -/
def clearTimer (ref : Option Nat) (ts : List TimerM) : List TimerM :=
  match ref with
  | none => ts
  | some i => ts.filter (fun tm => tm.id != i)

/-- The earliest timer due at time `t`: smallest fire time, creation order
breaking ties (the pending list is kept in creation order). -/
def selectDue (t : Nat) (ts : List TimerM) : Option TimerM :=
  (ts.filter (fun tm => tm.time ≤ t)).foldl
    (fun acc tm =>
      match acc with
      | none => some tm
      | some b => if tm.time < b.time then some tm else some b) none

/-- The body of an expiring timer.  Show timer (line 34): open via
`tooltip.toggle` only when not already open.  Hide timer (line 58): close via
`tooltip.toggle` only when still open. -/
def runCallback (tm : TimerM) (s : DispState) : DispState :=
  if tm.isShow then
    if !s.isOpen then { s with isOpen := true, toggles := s.toggles + 1 } else s
  else
    if s.isOpen then { s with isOpen := false, toggles := s.toggles + 1 } else s

/-- Fire, in order, every pending timer due at time `t`.  Callbacks create no
timers, so the initial number of pending timers bounds the iteration. -/
def fireDueF : Nat → Nat → DispState → DispState
  | 0, _, s => s
  | fuel + 1, t, s =>
    match selectDue t s.timers with
    | none => s
    | some tm =>
      fireDueF fuel t (runCallback tm { s with timers := s.timers.filter (fun x => x.id != tm.id) })

/-- All timers due at time `t` fire before the listener for an event at `t`
runs. -/
def fireDue (t : Nat) (s : DispState) : DispState := fireDueF s.timers.length t s

/-- Embedding of the two event listeners (lines 32-43 and 56-63).  Start
event: `clearTimeout(hideTimeout)`, then `showTimeout = setTimeout(..., 40)`
— the previous show timer, if any, is merely orphaned, not cancelled.  End
event: `clearTimeout(showTimeout)`, then `hideTimeout = setTimeout(..., 40)`.
Timers already due fire before the listener body runs. -/
def handleEvent (s : DispState) (ev : Nat × EventKind) : DispState :=
  match ev.2 with
  | .startEv =>
    let s := fireDue ev.1 s
    let s := { s with timers := clearTimer s.hideRef s.timers }
    { s with timers := s.timers ++ [{ id := s.nextId, time := ev.1 + 40, isShow := true }],
             showRef := some s.nextId, nextId := s.nextId + 1 }
  | .endEv =>
    let s := fireDue ev.1 s
    let s := { s with timers := clearTimer s.showRef s.timers }
    { s with timers := s.timers ++ [{ id := s.nextId, time := ev.1 + 40, isShow := false }],
             hideRef := some s.nextId, nextId := s.nextId + 1 }

/-- Process a time-ordered event sequence. -/
def runEvents (s : DispState) (evs : List (Nat × EventKind)) : DispState :=
  evs.foldl handleEvent s

/-- The earliest pending timer, regardless of time. -/
def selectNext (ts : List TimerM) : Option TimerM :=
  ts.foldl
    (fun acc tm =>
      match acc with
      | none => some tm
      | some b => if tm.time < b.time then some tm else some b) none

/-- After the last event, let every remaining timer expire in time order. -/
def flushF : Nat → DispState → DispState
  | 0, s => s
  | fuel + 1, s =>
    match selectNext s.timers with
    | none => s
    | some tm =>
      flushF fuel (runCallback tm { s with timers := s.timers.filter (fun x => x.id != tm.id) })

/-- Run the dispatcher to quiescence. -/
def flushAll (s : DispState) : DispState := flushF s.timers.length s

/-- A trigger's dispatcher at page load with its tooltip closed. -/
def initClosed : DispState :=
  { isOpen := false, timers := [], showRef := none, hideRef := none, nextId := 0, toggles := 0 }

/-- A quiescent dispatcher whose tooltip is currently open (reachable, e.g.,
after a completed show and a cancelled hide). -/
def initOpen : DispState :=
  { isOpen := true, timers := [], showRef := none, hideRef := none, nextId := 0, toggles := 0 }

/--
C6 counterexample.  When the tooltip is already open, a start-event at `t = 0`
followed by an end-event at `t = 30` (within the 40 ms delay) does fire the
hide action: the end-event cancels only the pending show timer, the hide timer
expires at `t = 70` with the tooltip still open, and its callback invokes
`toggle` — one toggle runs and `isOpen` changes from `true` to `false`.
-/
theorem rapid_start_end_open_fires_hide :
    (flushAll (runEvents initOpen [(0, EventKind.startEv), (30, EventKind.endEv)])).toggles = 1 ∧
      (flushAll (runEvents initOpen [(0, EventKind.startEv), (30, EventKind.endEv)])).isOpen
        = false ∧
      initOpen.isOpen = true := by
  decide

/--
C6 amended.  From a quiescent dispatcher with the tooltip closed, a
start-event at `t0` followed by an end-event at `t1` within the 40 ms delay
(`t0 ≤ t1 < t0 + 40`) fires neither show nor hide: the end-event cancels the
pending show timer, and the hide timer's callback finds the tooltip closed at
expiry and does nothing, so no `toggle` is invoked and `isOpen` stays `false`.
(When the tooltip is instead open at the start-event, the hide action does
fire at expiry.)
-/
theorem rapid_start_end_closed_no_toggle (t0 t1 : Nat) (h0 : t0 ≤ t1) (hlt : t1 < t0 + 40) :
    (flushAll (runEvents initClosed [(t0, EventKind.startEv), (t1, EventKind.endEv)])).toggles
        = 0 ∧
      (flushAll (runEvents initClosed [(t0, EventKind.startEv), (t1, EventKind.endEv)])).isOpen
        = false := by
  have hnle : ¬ (t0 + 40 ≤ t1) := by omega
  have e1 : runEvents initClosed [(t0, EventKind.startEv), (t1, EventKind.endEv)] =
      handleEvent
        { isOpen := false, timers := [{ id := 0, time := t0 + 40, isShow := true }],
          showRef := some 0, hideRef := none, nextId := 1, toggles := 0 }
        (t1, EventKind.endEv) := rfl
  have e2 : fireDue t1
      { isOpen := false, timers := [{ id := 0, time := t0 + 40, isShow := true }],
        showRef := some 0, hideRef := none, nextId := 1, toggles := 0 } =
      { isOpen := false, timers := [{ id := 0, time := t0 + 40, isShow := true }],
        showRef := some 0, hideRef := none, nextId := 1, toggles := 0 } := by
    unfold fireDue fireDueF selectDue
    simp [hnle]
  have e3 : handleEvent
      { isOpen := false, timers := [{ id := 0, time := t0 + 40, isShow := true }],
        showRef := some 0, hideRef := none, nextId := 1, toggles := 0 }
      (t1, EventKind.endEv) =
      { isOpen := false, timers := [{ id := 1, time := t1 + 40, isShow := false }],
        showRef := some 0, hideRef := some 1, nextId := 2, toggles := 0 } := by
    unfold handleEvent
    rw [e2]
    simp [clearTimer]
  rw [e1, e3]
  exact ⟨rfl, rfl⟩

/-- Witness for C6's amended theorem at the concrete times `t0 = 0`,
`t1 = 30`. -/
theorem rapid_start_end_closed_no_toggle_witness :
    (flushAll (runEvents initClosed [(0, EventKind.startEv), (30, EventKind.endEv)])).toggles
        = 0 ∧
      (flushAll (runEvents initClosed [(0, EventKind.startEv), (30, EventKind.endEv)])).isOpen
        = false :=
  rapid_start_end_closed_no_toggle 0 30 (by decide) (by decide)

end PixelGooeyTooltip
